import Mathlib

/-!
Verification of the webhook dispatch and lifecycle core of the
Receiver6Webhook repository (`src/main.py`, with `src/bot.py` as the
earlier variant of the same component).

The embedding models:
* the process configuration read from the environment (`config`),
* the Settings Store (the `database` collaborator module, which is not
  part of the shown sources; its operations are modelled from the spec),
* the two maintenance jobs and the authenticated cron trigger endpoint,
* the startup/shutdown lifecycle (`lifespan`),
* the handler registry and the webhook dispatcher.

Effects (platform API calls, Settings Store reads, log lines, concurrent
`asyncio.gather` batches) are recorded as explicit event traces so that
claims about "which calls happen, how many times, in which order" become
statements about lists.
-/

namespace Receiver6

/-- A stuck/pending account row as consumed by `recurring_account_check_job`
(fields user_id, phone_number, job_id). -/
structure Account where
  user_id : Int
  phone_number : String
  job_id : String
deriving DecidableEq, Repr

/-- Association-list of persisted settings (key/value strings). -/
abbrev Settings := List (String × String)

/-- Look a key up in a settings association list. -/
def getAssoc (s : Settings) (k : String) : Option String :=
  (s.find? (fun p => p.1 = k)).map (fun p => p.2)

/-- Overwrite (or insert) a key in a settings association list. -/
def setAssoc (s : Settings) (k v : String) : Settings :=
  if s.any (fun p => p.1 = k) then
    s.map (fun p => if p.1 = k then (k, v) else p)
  else
    s ++ [(k, v)]

/-- Modelled from the spec: the state held by the Settings Store
(`database` collaborator, not among the shown sources): settings, the
admin list, the API credential rotation pool, the two account sets the
account-check job fetches, and the number of stale topic records. -/
structure DB where
  settings : Settings
  admins : List Int
  apiCredentials : List (String × String)
  accountsForReprocessing : List Account
  stuckPendingAccounts : List Account
  oldTopics : Nat
deriving DecidableEq, Repr

/-- Modelled from the spec: `database.get_setting(key)`. -/
def get_setting (db : DB) (k : String) : Option String :=
  getAssoc db.settings k

/-- Modelled from the spec: `database.set_setting(key, value)` overwrites
any prior value. -/
def set_setting (db : DB) (k v : String) : DB :=
  { db with settings := setAssoc db.settings k v }

/-- Modelled from the spec: `database.add_admin(id)` grants admin
privileges idempotently; returns `true` exactly on first grant. -/
def add_admin (db : DB) (aid : Int) : DB × Bool :=
  if db.admins.contains aid then (db, false)
  else ({ db with admins := db.admins ++ [aid] }, true)

/-- Modelled from the spec: `database.add_api_credential(id, hash)` adds a
credential to the rotation pool. -/
def add_api_credential (db : DB) (apiId apiHash : String) : DB :=
  { db with apiCredentials := db.apiCredentials ++ [(apiId, apiHash)] }

/-- Modelled from the spec: `database.clear_old_topics()` removes every
stale topic record and returns the number removed (so an immediate second
call removes nothing). -/
def clear_old_topics (db : DB) : DB × Nat :=
  ({ db with oldTopics := 0 }, db.oldTopics)

/-- Process configuration (`config` module / environment variables). -/
structure Cfg where
  botToken : String
  webhookUrl : String
  initialAdminId : Option Int
  schedulerDbFile : String
  sessionLogChannelId : String
  enableSessionForwarding : String
  cronSecret : Option String
deriving DecidableEq, Repr

/-- One awaited external call issued by a maintenance job. -/
inductive JobCall where
  | reprocess (acc : Account)
  | scheduleInitialCheck (botToken : String) (userIdStr : String)
      (chatId : Int) (phoneNumber : String) (jobId : String)
      (promptMessageId : Option Nat)
deriving DecidableEq, Repr

/-- An observable effect of the core: log lines, Settings Store accesses
by jobs, a concurrently awaited `asyncio.gather` batch of external calls,
and platform (bot API) calls made by the lifecycle. -/
inductive Event where
  | logInfo (msg : String)
  | logWarning (msg : String)
  | logClearedCount (removed : Nat)
  | dbGetAccountsForReprocessing
  | dbGetStuckPendingAccounts
  | dbClearOldTopics (removed : Nat)
  | gather (calls : List JobCall)
  | setMyCommandsDefault
  | setMyCommandsChat (chatId : Int) (ok : Bool)
  | setWebhook (url : String) (dropPending : Bool)
  | deleteWebhook
deriving DecidableEq, Repr

/-- The `login.schedule_initial_check(...)` call built for one stuck
account by the account-check job of src/main.py. -/
def stuckCall (cfg : Cfg) (acc : Account) : JobCall :=
  JobCall.scheduleInitialCheck cfg.botToken (toString acc.user_id)
    acc.user_id acc.phone_number acc.job_id none

/-- The function recurring_account_check_job from src/main.py: fetch the two
account sets, `gather` a reprocess call per reprocessing-due account, then
`gather` a schedule-initial-check call per stuck account, log a no-op
outcome when both sets are empty, and log completion. -/
def recurring_account_check_job (cfg : Cfg) (db : DB) : List Event :=
  [Event.logInfo "Cron job: Running periodic account checks...",
   Event.dbGetAccountsForReprocessing,
   Event.dbGetStuckPendingAccounts]
  ++ (if db.accountsForReprocessing.isEmpty then []
      else [Event.logInfo "Found account(s) for 24h reprocessing.",
            Event.gather (db.accountsForReprocessing.map JobCall.reprocess)])
  ++ (if db.stuckPendingAccounts.isEmpty then []
      else [Event.logInfo "Found stuck account(s). Re-scheduling initial check.",
            Event.gather (db.stuckPendingAccounts.map (stuckCall cfg))])
  ++ (if db.accountsForReprocessing.isEmpty && db.stuckPendingAccounts.isEmpty then
        [Event.logInfo "Cron job: No accounts needed attention."]
      else [])
  ++ [Event.logInfo "Cron job: Finished periodic account checks."]

/-- The function daily_cleanup_job from src/main.py: call clear_old_topics once;
the removed count is ignored (not logged). -/
def daily_cleanup_job (db : DB) : DB × List Event :=
  let r := clear_old_topics db
  (r.1, [Event.logInfo "Cron job: Running daily topic cleanup...",
         Event.dbClearOldTopics r.2,
         Event.logInfo "Cron job: Finished daily topic cleanup."])

/-- The function daily_cleanup_job from src/bot.py: call clear_old_topics once
and log the removed count when it is greater than zero. -/
def daily_cleanup_job_bot (db : DB) : DB × List Event :=
  let r := clear_old_topics db
  (r.1, [Event.logInfo "Cron job: Running daily topic cleanup...",
         Event.dbClearOldTopics r.2]
        ++ (if r.2 > 0 then [Event.logClearedCount r.2] else [])
        ++ [Event.logInfo "Cron job: Finished daily topic cleanup."])

/-- HTTP outcome of the cron trigger endpoint. -/
inductive CronStatus where
  | ok (body : String)
  | unauthorized
  | notFound
deriving DecidableEq, Repr

/-- The guard of the cron endpoints: the request is rejected when the
configured secret is falsy or the header differs from the bearer-prefixed
secret; so it is authorized iff the secret is set (non-None, non-empty,
Python truthiness) and the header equals the string Bearer-space-secret
exactly. -/
def cronAuthorized (secret auth : Option String) : Bool :=
  match secret with
  | none => false
  | some s => !(s = "") && (auth = some ("Bearer " ++ s))

/-- The function cron_endpoint from src/main.py (the POST cron route with a
job-name path parameter):
401 when unauthorized (no job run, no Settings Store access), then
dispatch on the job name, 404 for an unknown name. -/
def cron_endpoint (cfg : Cfg) (auth : Option String) (job_name : String)
    (db : DB) : CronStatus × DB × List Event :=
  if cronAuthorized cfg.cronSecret auth then
    if job_name = "account-check" then
      (CronStatus.ok "account check triggered", db, recurring_account_check_job cfg db)
    else if job_name = "daily-cleanup" then
      let r := daily_cleanup_job db
      (CronStatus.ok "daily cleanup triggered", r.1, r.2)
    else
      (CronStatus.notFound, db, [])
  else
    (CronStatus.unauthorized, db, [])

/-- The condition under which the claim says the endpoint must answer
401, in the words of the claim: the configured cron secret is unset, or
the Authorization header does not exactly equal `Bearer <secret>`
(including a missing header). -/
def specCronUnauthorized (secret auth : Option String) : Prop :=
  secret = none ∨ secret = some "" ∨
    (∀ s, secret = some s → auth ≠ some ("Bearer " ++ s))

/-- The warning logged when publishing the admin menu to one admin raises. -/
def adminWarnMsg (a : Int) : String :=
  "Could not set commands for admin " ++ toString a

/-- The per-admin command-menu publication loop of `lifespan`: for each
admin in order, attempt set_my_commands for the chat of that admin; a raise
(`fails a = true`) is caught and logged and the loop continues with the
remaining admins. -/
def publishAdminMenus (fails : Int → Bool) : List Int → List Event
  | [] => []
  | a :: rest =>
    (if fails a then
       [Event.setMyCommandsChat a false, Event.logWarning (adminWarnMsg a)]
     else
       [Event.setMyCommandsChat a true])
    ++ publishAdminMenus fails rest

/-- The credential-seeding step of `lifespan`: if the rotation pool is
empty, add one default credential, its id/hash taken from the loaded
settings (`bot_data`) with the hard-coded fallbacks. -/
def seedApiCredential (db : DB) : DB :=
  if db.apiCredentials.isEmpty then
    add_api_credential db
      ((getAssoc db.settings "api_id").getD "25707049")
      ((getAssoc db.settings "api_hash").getD "676a65f1f7028e4d969c628c73fbfccc")
  else db

/-- The deployment-settings sync step of `lifespan`: write the session-log
channel id and the forwarding flag into the Settings Store, overwriting
any prior value. -/
def startupSettingsSync (cfg : Cfg) (db0 : DB) : DB :=
  set_setting
    (set_setting db0 "session_log_channel_id" cfg.sessionLogChannelId)
    "enable_session_forwarding" cfg.enableSessionForwarding

/-- The initial-admin grant step of `lifespan`: when an initial admin id
is configured, grant it admin privileges idempotently. -/
def startupAdminGrant (cfg : Cfg) (db : DB) : DB :=
  match cfg.initialAdminId with
  | none => db
  | some aid => (add_admin db aid).1

/-- The Settings Store state after the mandatory startup steps 1-5. -/
def startupDB (cfg : Cfg) (db0 : DB) : DB :=
  seedApiCredential (startupAdminGrant cfg (startupSettingsSync cfg db0))

/-- The startup half of `lifespan` from `src/main.py`: init schema, sync
the two deployment settings, grant the initial admin idempotently, load
settings into the process context, seed the credential pool if empty,
publish the default menu, publish the admin menu to every admin (per-admin
failures caught), then register the webhook with drop-pending semantics.
Returns the Settings Store state after startup and the platform-call/log
trace. The argument `fails` says for which admins publishing raises. -/
def lifespan_startup (cfg : Cfg) (db0 : DB) (fails : Int → Bool) :
    DB × List Event :=
  (startupDB cfg db0,
   [Event.setMyCommandsDefault]
   ++ publishAdminMenus fails (startupDB cfg db0).admins
   ++ [Event.setWebhook cfg.webhookUrl true])

/-- The shutdown half of `lifespan`: unconditionally delete the webhook. -/
def lifespan_shutdown : List Event :=
  [Event.deleteWebhook]

/-- The platform-call trace of one whole process lifetime: startup events
followed by shutdown events. -/
def lifespan_trace (cfg : Cfg) (db0 : DB) (fails : Int → Bool) : List Event :=
  (lifespan_startup cfg db0 fails).2 ++ lifespan_shutdown

/-- Keep only the webhook registration/deregistration calls of a trace. -/
def webhookOps (tr : List Event) : List Event :=
  tr.filter (fun e =>
    match e with
    | Event.setWebhook _ _ => true
    | Event.deleteWebhook => true
    | _ => false)

/-!
## Handler registry and dispatcher

A handler is a predicate plus a named action; the action may raise
(`Except`). The registry is an association list from group number to the
handlers of that group, kept in ascending group order by `addGroup` — this
models the dict of handler groups of the framework, whose keys are iterated in
sorted order. Per the framework semantics assumed by the spec (§4.1/§4.2):
groups are visited in ascending numeric order, within one group only the
first handler whose predicate matches fires, and an error raised by a
handler action surfaces as an uncaught exception from the dispatch.
-/

/-- A (predicate, action) pair; `name` identifies the action, `run` is the
action itself (which may raise). -/
structure Handler (U : Type) where
  check : U → Bool
  name : String
  run : U → Except String Unit

/-- A registry: groups with their handler lists, ascending by group. -/
abbrev Registry (U : Type) := List (Nat × List (Handler U))

/-- Insert a batch of handlers into a registry under group `g`, keeping
the group keys sorted ascending and appending within an existing group
(the order the sorted-dict iteration of the framework exposes). -/
def addGroup {U : Type} (reg : Registry U) (g : Nat) (hs : List (Handler U)) :
    Registry U :=
  match reg with
  | [] => [(g, hs)]
  | (g', hs') :: rest =>
    if g < g' then (g, hs) :: (g', hs') :: rest
    else if g = g' then (g', hs' ++ hs) :: rest
    else (g', hs') :: addGroup rest g hs

/-- Within one group, the first handler whose predicate matches. -/
def firstMatch {U : Type} (hs : List (Handler U)) (u : U) : Option (Handler U) :=
  hs.find? (fun h => h.check u)

/-- The actions that fire for an update: one per group (the first match of
the group), groups in the ascending order of the registry. -/
def resolve {U : Type} (reg : Registry U) (u : U) : List (Handler U) :=
  reg.filterMap (fun g => firstMatch g.2 u)

/-- Run the resolved actions in order; returns the names of the actions
invoked and the first uncaught error, which aborts the rest. -/
def runActions {U : Type} : List (Handler U) → U → List String × Option String
  | [], _ => ([], none)
  | h :: rest, u =>
    match h.run u with
    | Except.ok _ =>
      let r := runActions rest u
      (h.name :: r.1, r.2)
    | Except.error e => ([h.name], some e)

/-- Dispatch one update through the registry. -/
def process_update {U : Type} (reg : Registry U) (u : U) :
    List String × Option String :=
  runActions (resolve reg u) u

/-- The Python isdigit test as used on the support_id setting
(restricted to decimal digits), conjoined with Python truthiness of the
string: non-empty and all decimal digits. -/
def supportIdAccepted : Option String → Bool
  | none => false
  | some s => !(s = "") && s.data.all Char.isDigit

/-- The module-load handler registration of `src/main.py`: admin handlers
(with the appended zip handler) in group 0; the support-admin reply proxy
in group 1 only when the `support_id` setting is a truthy all-digit
string; the user handlers in group 2. -/
def buildRegistry {U : Type} (adminHs : List (Handler U))
    (supportSetting : Option String) (supportH : Handler U)
    (userHs : List (Handler U)) : Registry U :=
  let r0 := addGroup ([] : Registry U) 0 adminHs
  let r1 := if supportIdAccepted supportSetting then addGroup r0 1 [supportH] else r0
  addGroup r1 2 userHs

/-- The function handle_telegram_update from src/main.py (POST to the root
path): parse the raw
body into an Update; any exception — a parse failure or an uncaught error
from dispatch — is caught and answered with 500; otherwise 200. Returns
the HTTP status and the names of the handler actions invoked. -/
def handle_telegram_update {B U : Type} (parse : B → Option U)
    (reg : Registry U) (body : B) : Nat × List String :=
  match parse body with
  | none => (500, [])
  | some u =>
    let r := process_update reg u
    match r.2 with
    | none => (200, r.1)
    | some _ => (500, r.1)

/-!
## Derived notions used in the statements
-/

/-- Everything the account-check job does before it reaches the gather
batch for the stuck accounts (when that set is non-empty): the start log,
the two Settings Store reads, the optional reprocessing phase, and the
stuck-accounts log line. -/
def accountCheckPrefix (db : DB) : List Event :=
  [Event.logInfo "Cron job: Running periodic account checks...",
   Event.dbGetAccountsForReprocessing,
   Event.dbGetStuckPendingAccounts]
  ++ (if db.accountsForReprocessing.isEmpty then []
      else [Event.logInfo "Found account(s) for 24h reprocessing.",
            Event.gather (db.accountsForReprocessing.map JobCall.reprocess)])
  ++ [Event.logInfo "Found stuck account(s). Re-scheduling initial check."]

/-- Whether a maintenance-job call is a reprocessing call (as opposed to
a reschedule-initial-check call). -/
def isReprocessCall : JobCall → Bool
  | JobCall.reprocess _ => true
  | JobCall.scheduleInitialCheck _ _ _ _ _ _ => false

/-- Whether every concurrent batch in a trace holds reprocessing calls
only, i.e. no reschedule-initial-check call is issued anywhere in it. -/
def onlyReprocessGathers (tr : List Event) : Bool :=
  tr.all (fun e =>
    match e with
    | Event.gather calls => calls.all isReprocessCall
    | _ => true)

/-- Whether an event is the external clear-old-topic-records call. -/
def isClearCall : Event → Bool
  | Event.dbClearOldTopics _ => true
  | _ => false

/-- Whether an event is a log line reporting the removed-topics count. -/
def isClearedCountLog : Event → Bool
  | Event.logClearedCount _ => true
  | _ => false

/-!
## Concrete fixtures (used by witnesses and counterexamples)
-/

/-- A concrete process configuration with the cron secret set. -/
def cfgW : Cfg :=
  { botToken := "tok", webhookUrl := "https://bot.example/", initialAdminId := none,
    schedulerDbFile := "sched.db", sessionLogChannelId := "-100", enableSessionForwarding := "True",
    cronSecret := some "sec" }

/-- A concrete empty Settings Store. -/
def dbW : DB :=
  { settings := [], admins := [], apiCredentials := [],
    accountsForReprocessing := [], stuckPendingAccounts := [], oldTopics := 0 }

/-- A concrete stuck account. -/
def accW : Account := { user_id := 5, phone_number := "+15550100", job_id := "job-5" }

/-- A Settings Store with one stuck pending account. -/
def dbStuck : DB :=
  { settings := [], admins := [], apiCredentials := [],
    accountsForReprocessing := [], stuckPendingAccounts := [accW], oldTopics := 0 }

/-- A Settings Store with five stale topic records. -/
def dbStale : DB :=
  { settings := [], admins := [], apiCredentials := [],
    accountsForReprocessing := [], stuckPendingAccounts := [], oldTopics := 5 }

/-- A Settings Store with one admin and one credential already present. -/
def dbAdmin : DB :=
  { settings := [], admins := [7], apiCredentials := [("1", "h")],
    accountsForReprocessing := [], stuckPendingAccounts := [], oldTopics := 0 }

/-- A Settings Store whose support_id setting is the digit string "42". -/
def dbSupport : DB :=
  { settings := [("support_id", "42")], admins := [], apiCredentials := [],
    accountsForReprocessing := [], stuckPendingAccounts := [], oldTopics := 0 }

/-- A failure pattern in which publishing fails for every admin. -/
def failsAllW : Int → Bool := fun _ => true

/-- A failure pattern in which publishing never fails. -/
def failsNoneW : Int → Bool := fun _ => false

/-- A concrete group-0 handler: matches update 1. -/
def hAdminW : Handler Nat :=
  { check := fun u => u = 1, name := "admin-zip", run := fun _ => Except.ok () }

/-- A concrete group-1 support-reply handler: never matches. -/
def hSupportW : Handler Nat :=
  { check := fun _ => false, name := "support-reply", run := fun _ => Except.ok () }

/-- A concrete group-2 handler: matches updates 1 and 2. -/
def hUserW : Handler Nat :=
  { check := fun u => u = 1 || u = 2, name := "user-text", run := fun _ => Except.ok () }

/-- A concrete registry assembled exactly as at module load. -/
def regW : Registry Nat := buildRegistry [hAdminW] none hSupportW [hUserW]

/-- A concrete parse function standing for the platform deserializer:
only the body "ok" parses (to update 1). -/
def demoParse : String → Option Nat :=
  fun s => if s = "ok" then some 1 else none

/-!
## Helper lemmas
-/

theorem cronAuthorized_false_iff (secret auth : Option String) :
    cronAuthorized secret auth = false ↔ specCronUnauthorized secret auth := by
  cases secret with
  | none => simp [cronAuthorized, specCronUnauthorized]
  | some s =>
    by_cases hs : s = ""
    · subst hs; simp [cronAuthorized, specCronUnauthorized]
    · simp [cronAuthorized, specCronUnauthorized, hs]

theorem accountCheck_ends_with_finish (cfg : Cfg) (db : DB) :
    ∃ pre, recurring_account_check_job cfg db
      = pre ++ [Event.logInfo "Cron job: Finished periodic account checks."] := by
  refine ⟨[Event.logInfo "Cron job: Running periodic account checks...",
           Event.dbGetAccountsForReprocessing,
           Event.dbGetStuckPendingAccounts]
    ++ (if db.accountsForReprocessing.isEmpty then []
        else [Event.logInfo "Found account(s) for 24h reprocessing.",
              Event.gather (db.accountsForReprocessing.map JobCall.reprocess)])
    ++ (if db.stuckPendingAccounts.isEmpty then []
        else [Event.logInfo "Found stuck account(s). Re-scheduling initial check.",
              Event.gather (db.stuckPendingAccounts.map (stuckCall cfg))])
    ++ (if db.accountsForReprocessing.isEmpty && db.stuckPendingAccounts.isEmpty then
          [Event.logInfo "Cron job: No accounts needed attention."]
        else []), ?_⟩
  simp [recurring_account_check_job, List.append_assoc]

/-!
## Claim C1
-/

/-- C1: for every POST to the cron route, the response is 401 with no job
executed and no Settings Store access by a job whenever the secret is
unset or the Authorization header differs from the bearer-prefixed secret
(the first conjunct identifies the guard of the code with exactly that
condition); otherwise 404 with no job executed when the job name is
unknown; otherwise 200 with a status body carrying the full trace of the
named job, whose final event is its completion log. -/
theorem cron_endpoint_classification (cfg : Cfg) (auth : Option String)
    (job : String) (db : DB) :
    (cronAuthorized cfg.cronSecret auth = false ↔
      specCronUnauthorized cfg.cronSecret auth)
    ∧ (specCronUnauthorized cfg.cronSecret auth →
        cron_endpoint cfg auth job db = (CronStatus.unauthorized, db, []))
    ∧ (cronAuthorized cfg.cronSecret auth = true →
        job ≠ "account-check" → job ≠ "daily-cleanup" →
        cron_endpoint cfg auth job db = (CronStatus.notFound, db, []))
    ∧ (cronAuthorized cfg.cronSecret auth = true →
        cron_endpoint cfg auth "account-check" db
          = (CronStatus.ok "account check triggered", db,
             recurring_account_check_job cfg db)
        ∧ ∃ pre, recurring_account_check_job cfg db
            = pre ++ [Event.logInfo "Cron job: Finished periodic account checks."])
    ∧ (cronAuthorized cfg.cronSecret auth = true →
        cron_endpoint cfg auth "daily-cleanup" db
          = (CronStatus.ok "daily cleanup triggered",
             (daily_cleanup_job db).1, (daily_cleanup_job db).2)
        ∧ (daily_cleanup_job db).2.getLast?
            = some (Event.logInfo "Cron job: Finished daily topic cleanup.")) := by
  refine ⟨cronAuthorized_false_iff cfg.cronSecret auth, ?_, ?_, ?_, ?_⟩
  · intro h
    have hf : cronAuthorized cfg.cronSecret auth = false :=
      (cronAuthorized_false_iff cfg.cronSecret auth).2 h
    simp [cron_endpoint, hf]
  · intro h ha hb
    simp [cron_endpoint, h, ha, hb]
  · intro h
    exact ⟨by simp [cron_endpoint, h], accountCheck_ends_with_finish cfg db⟩
  · intro h
    refine ⟨by simp [cron_endpoint, h], ?_⟩
    simp [daily_cleanup_job]

/-- Witness for C1: with the secret configured as "sec", a wrong bearer
value is refused with 401, no Settings Store access and no state change. -/
theorem cron_endpoint_classification_witness :
    cron_endpoint cfgW (some "Bearer wrong") "account-check" dbW
      = (CronStatus.unauthorized, dbW, []) :=
  (cron_endpoint_classification cfgW (some "Bearer wrong") "account-check" dbW).2.1
    (Or.inr (Or.inr (fun s hs => by
      injection hs with h
      subst h
      decide)))

/-!
## Claim C5
-/

/-- C5: whenever the Settings Store returns a non-empty set of stuck
pending accounts, the account-check job trace is: a prefix containing no
reschedule-initial-check call (its concurrent batches, if any, hold only
reprocessing calls), then a single concurrently awaited batch with exactly
one reschedule-initial-check call per stuck account, then — only after
that whole batch — the completion log that precedes the 200 response. -/
theorem account_check_awaits_all_stuck (cfg : Cfg) (db : DB)
    (h : db.stuckPendingAccounts ≠ []) :
    recurring_account_check_job cfg db
      = accountCheckPrefix db
        ++ [Event.gather (db.stuckPendingAccounts.map (stuckCall cfg)),
            Event.logInfo "Cron job: Finished periodic account checks."]
    ∧ onlyReprocessGathers (accountCheckPrefix db) = true := by
  have he : db.stuckPendingAccounts.isEmpty = false := by
    cases hl : db.stuckPendingAccounts with
    | nil => exact absurd hl h
    | cons a l => rfl
  constructor
  · simp [recurring_account_check_job, accountCheckPrefix, he, List.append_assoc]
  · by_cases hr : db.accountsForReprocessing.isEmpty
    · simp [accountCheckPrefix, hr, onlyReprocessGathers]
    · simp only [accountCheckPrefix, hr, if_false, Bool.false_eq_true,
        onlyReprocessGathers, List.all_append, List.all_cons, List.all_nil,
        Bool.and_true, Bool.true_and]
      simp [List.all_eq_true, isReprocessCall]

/-- Witness for C5 at a store holding one stuck account. -/
theorem account_check_awaits_all_stuck_witness :
    recurring_account_check_job cfgW dbStuck
      = accountCheckPrefix dbStuck
        ++ [Event.gather (dbStuck.stuckPendingAccounts.map (stuckCall cfgW)),
            Event.logInfo "Cron job: Finished periodic account checks."]
    ∧ onlyReprocessGathers (accountCheckPrefix dbStuck) = true :=
  account_check_awaits_all_stuck cfgW dbStuck (by decide)

/-!
## Claim C6
-/

theorem startupSettingsSync_apiCredentials (cfg : Cfg) (db : DB) :
    (startupSettingsSync cfg db).apiCredentials = db.apiCredentials := rfl

theorem startupAdminGrant_apiCredentials (cfg : Cfg) (db : DB) :
    (startupAdminGrant cfg db).apiCredentials = db.apiCredentials := by
  cases h : cfg.initialAdminId with
  | none => simp [startupAdminGrant, h]
  | some aid =>
    simp only [startupAdminGrant, h, add_admin]
    split <;> rfl

/-- C6: a startup run beginning with an empty API credential rotation pool
leaves exactly one credential in the pool, and a startup run beginning
with a non-empty pool leaves it exactly as it was. -/
theorem startup_seeds_credential_pool (cfg : Cfg) (db0 : DB) (fails : Int → Bool) :
    (db0.apiCredentials = [] →
      (lifespan_startup cfg db0 fails).1.apiCredentials.length = 1)
    ∧ (db0.apiCredentials ≠ [] →
      (lifespan_startup cfg db0 fails).1.apiCredentials = db0.apiCredentials) := by
  have hpre : (startupAdminGrant cfg (startupSettingsSync cfg db0)).apiCredentials
      = db0.apiCredentials := by
    rw [startupAdminGrant_apiCredentials, startupSettingsSync_apiCredentials]
  constructor
  · intro h
    show (seedApiCredential (startupAdminGrant cfg (startupSettingsSync cfg db0))).apiCredentials.length = 1
    simp [seedApiCredential, add_api_credential, hpre, h]
  · intro h
    show (seedApiCredential (startupAdminGrant cfg (startupSettingsSync cfg db0))).apiCredentials = db0.apiCredentials
    have he : db0.apiCredentials.isEmpty = false := by
      cases hl : db0.apiCredentials with
      | nil => exact absurd hl h
      | cons a l => rfl
    simp [seedApiCredential, hpre, he]

/-- Witness for C6: empty pool gains exactly one credential; a pool that
already holds one is unchanged. -/
theorem startup_seeds_credential_pool_witness :
    (lifespan_startup cfgW dbW failsNoneW).1.apiCredentials.length = 1
    ∧ (lifespan_startup cfgW dbAdmin failsNoneW).1.apiCredentials
        = dbAdmin.apiCredentials :=
  ⟨(startup_seeds_credential_pool cfgW dbW failsNoneW).1 rfl,
   (startup_seeds_credential_pool cfgW dbAdmin failsNoneW).2 (by decide)⟩

/-!
## Claim C4
-/

theorem webhookOps_append (l₁ l₂ : List Event) :
    webhookOps (l₁ ++ l₂) = webhookOps l₁ ++ webhookOps l₂ := by
  simp [webhookOps, List.filter_append]

theorem webhookOps_publish (fails : Int → Bool) (admins : List Int) :
    webhookOps (publishAdminMenus fails admins) = [] := by
  induction admins with
  | nil => rfl
  | cons a rest ih =>
    show webhookOps ((if fails a then
        [Event.setMyCommandsChat a false, Event.logWarning (adminWarnMsg a)]
      else [Event.setMyCommandsChat a true]) ++ publishAdminMenus fails rest) = []
    rw [webhookOps_append, ih, List.append_nil]
    cases hf : fails a <;> simp [hf, webhookOps]

/-- C4: in every process lifetime — whatever subset of per-admin menu
publications fails — the webhook operations of the whole trace are
exactly one set-webhook call with drop-pending set to true (at startup)
followed by exactly one delete-webhook call (at shutdown); in particular
no point of the trace has two registrations outstanding. -/
theorem lifespan_webhook_exactly_once (cfg : Cfg) (db0 : DB) (fails : Int → Bool) :
    webhookOps (lifespan_trace cfg db0 fails)
      = [Event.setWebhook cfg.webhookUrl true, Event.deleteWebhook] := by
  simp only [lifespan_trace, lifespan_startup, lifespan_shutdown,
    webhookOps_append, webhookOps_publish, List.append_nil, List.nil_append]
  simp [webhookOps]

/-!
## Claim C9
-/

theorem mem_publish_attempt (fails : Int → Bool) (admins : List Int) (a : Int)
    (h : a ∈ admins) :
    Event.setMyCommandsChat a (!fails a) ∈ publishAdminMenus fails admins := by
  induction admins with
  | nil => cases h
  | cons b rest ih =>
    rcases List.mem_cons.1 h with rfl | h2
    · cases hf : fails a <;> simp [publishAdminMenus, hf]
    · exact List.mem_append_right _ (ih h2)

theorem mem_publish_warning (fails : Int → Bool) (admins : List Int) (a : Int)
    (h : a ∈ admins) (hf : fails a = true) :
    Event.logWarning (adminWarnMsg a) ∈ publishAdminMenus fails admins := by
  induction admins with
  | nil => cases h
  | cons b rest ih =>
    rcases List.mem_cons.1 h with rfl | h2
    · simp [publishAdminMenus, hf]
    · exact List.mem_append_right _ (ih h2)

/-- C9: during the admin menu publication step of startup, every listed
admin is attempted regardless of which other attempts raise, every raise
is caught and logged as a warning, and startup still proceeds to the
webhook registration that follows step 6. -/
theorem admin_menu_failures_nonfatal (cfg : Cfg) (db0 : DB) (fails : Int → Bool) :
    (∀ a ∈ (startupDB cfg db0).admins,
        Event.setMyCommandsChat a (!fails a) ∈ (lifespan_startup cfg db0 fails).2)
    ∧ (∀ a ∈ (startupDB cfg db0).admins, fails a = true →
        Event.logWarning (adminWarnMsg a) ∈ (lifespan_startup cfg db0 fails).2)
    ∧ Event.setWebhook cfg.webhookUrl true ∈ (lifespan_startup cfg db0 fails).2 := by
  refine ⟨?_, ?_, ?_⟩
  · intro a ha
    have hm := mem_publish_attempt fails (startupDB cfg db0).admins a ha
    simp only [lifespan_startup, List.mem_append, List.mem_cons]
    tauto
  · intro a ha hf
    have hm := mem_publish_warning fails (startupDB cfg db0).admins a ha hf
    simp only [lifespan_startup, List.mem_append, List.mem_cons]
    tauto
  · simp [lifespan_startup]

/-- Witness for C9: with one admin whose publication raises, the attempt
and the warning both appear in the startup trace, and the webhook is
still registered. -/
theorem admin_menu_failures_nonfatal_witness :
    Event.setMyCommandsChat 7 false ∈ (lifespan_startup cfgW dbAdmin failsAllW).2
    ∧ Event.logWarning (adminWarnMsg 7) ∈ (lifespan_startup cfgW dbAdmin failsAllW).2 :=
  ⟨(admin_menu_failures_nonfatal cfgW dbAdmin failsAllW).1 7 (by decide),
   (admin_menu_failures_nonfatal cfgW dbAdmin failsAllW).2.1 7 (by decide) rfl⟩

/-!
## Registry lemmas and claims C7, C10
-/

theorem find_eq_head_filter {α : Type} (p : α → Bool) (l : List α) :
    l.find? p = (l.filter p).head? := by
  induction l with
  | nil => rfl
  | cons a rest ih =>
    cases h : p a
    · have h2 : ¬ p a = true := by simp [h]
      rw [List.find?_cons_of_neg _ h2, List.filter_cons_of_neg h2, ih]
    · rw [List.find?_cons_of_pos _ h, List.filter_cons_of_pos h, List.head?_cons]

theorem buildRegistry_eq {U : Type} (a : List (Handler U)) (st : Option String)
    (sh : Handler U) (us : List (Handler U)) :
    buildRegistry a st sh us
      = if supportIdAccepted st then [(0, a), (1, [sh]), (2, us)]
        else [(0, a), (2, us)] := by
  by_cases h : supportIdAccepted st
  · simp only [buildRegistry, if_pos h]
    rfl
  · simp only [buildRegistry, if_neg h]
    rfl

/-- C7: for any update dispatched through the registry assembled at module
load: when the only matching predicate anywhere is a single group-0
handler, exactly that action executes; when exactly one group-0 predicate
and exactly one group-2 predicate match (and the group-1 one does not),
both actions execute, the group-0 one before the group-2 one — the groups
being visited in ascending numeric order. -/
theorem dispatch_ascending_groups {U : Type} (adminHs userHs : List (Handler U))
    (setting : Option String) (sh : Handler U) (u : U) (h0 h2 : Handler U) :
    (adminHs.filter (fun k => k.check u) = [h0] →
      sh.check u = false →
      userHs.filter (fun k => k.check u) = [] →
      (process_update (buildRegistry adminHs setting sh userHs) u).1 = [h0.name])
    ∧ (adminHs.filter (fun k => k.check u) = [h0] →
      sh.check u = false →
      userHs.filter (fun k => k.check u) = [h2] →
      h0.run u = Except.ok () →
      (process_update (buildRegistry adminHs setting sh userHs) u).1
        = [h0.name, h2.name]) := by
  constructor
  · intro hfa hsh hfu
    have fa : firstMatch adminHs u = some h0 := by
      rw [firstMatch, find_eq_head_filter, hfa]; rfl
    have fs : firstMatch [sh] u = none := by
      simp [firstMatch, List.find?, hsh]
    have fu : firstMatch userHs u = none := by
      rw [firstMatch, find_eq_head_filter, hfu]; rfl
    rw [buildRegistry_eq]
    by_cases h : supportIdAccepted setting
    · simp only [h, if_true, process_update, resolve, List.filterMap_cons,
        List.filterMap_nil, fa, fs, fu]
      cases hr : h0.run u <;> simp [runActions, hr]
    · simp only [h, if_false, Bool.false_eq_true, process_update, resolve,
        List.filterMap_cons, List.filterMap_nil, fa, fu]
      cases hr : h0.run u <;> simp [runActions, hr]
  · intro hfa hsh hfu hr0
    have fa : firstMatch adminHs u = some h0 := by
      rw [firstMatch, find_eq_head_filter, hfa]; rfl
    have fs : firstMatch [sh] u = none := by
      simp [firstMatch, List.find?, hsh]
    have fu : firstMatch userHs u = some h2 := by
      rw [firstMatch, find_eq_head_filter, hfu]; rfl
    rw [buildRegistry_eq]
    by_cases h : supportIdAccepted setting
    · simp only [h, if_true, process_update, resolve, List.filterMap_cons,
        List.filterMap_nil, fa, fs, fu]
      cases hr2 : h2.run u <;> simp [runActions, hr0, hr2]
    · simp only [h, if_false, Bool.false_eq_true, process_update, resolve,
        List.filterMap_cons, List.filterMap_nil, fa, fu]
      cases hr2 : h2.run u <;> simp [runActions, hr0, hr2]

/-- Witness for C7: update 1 matches the group-0 handler and the group-2
handler of the concrete registry; both actions fire, group 0 first. -/
theorem dispatch_ascending_groups_witness :
    (process_update regW 1).1 = ["admin-zip", "user-text"] :=
  (dispatch_ascending_groups [hAdminW] [hUserW] none hSupportW 1 hAdminW hUserW).2
    rfl rfl rfl rfl

theorem supportIdAccepted_iff (o : Option String) :
    supportIdAccepted o = true ↔
      ∃ s, o = some s ∧ s ≠ "" ∧ s.data.all Char.isDigit = true := by
  cases o with
  | none => simp [supportIdAccepted]
  | some s => simp [supportIdAccepted]

/-- C10: the registry assembled at module load has a group-1 entry (the
support-admin reply proxy) exactly when the Settings Store holds a
support_id value that is a non-empty all-decimal-digit string; for every
other value the registry is just group 0 followed by group 2 for the
whole process lifetime, so dispatch falls through from group 0 directly
to group 2. -/
theorem support_reply_registration {U : Type} (adminHs userHs : List (Handler U))
    (sh : Handler U) (db : DB) :
    (((buildRegistry adminHs (get_setting db "support_id") sh userHs).any
        (fun g => g.1 = 1)) = true
      ↔ ∃ s, get_setting db "support_id" = some s ∧ s ≠ ""
          ∧ s.data.all Char.isDigit = true)
    ∧ (supportIdAccepted (get_setting db "support_id") = false →
        buildRegistry adminHs (get_setting db "support_id") sh userHs
          = [(0, adminHs), (2, userHs)])
    ∧ (supportIdAccepted (get_setting db "support_id") = true →
        buildRegistry adminHs (get_setting db "support_id") sh userHs
          = [(0, adminHs), (1, [sh]), (2, userHs)]) := by
  refine ⟨?_, ?_, ?_⟩
  · rw [← supportIdAccepted_iff, buildRegistry_eq]
    by_cases h : supportIdAccepted (get_setting db "support_id") <;> simp [h]
  · intro h
    rw [buildRegistry_eq, h]
    simp
  · intro h
    rw [buildRegistry_eq, h]
    simp

/-- Witness for C10: with support_id stored as "42", the group-1 handler
is registered between groups 0 and 2. -/
theorem support_reply_registration_witness :
    buildRegistry [hAdminW] (get_setting dbSupport "support_id") hSupportW [hUserW]
      = [(0, [hAdminW]), (1, [hSupportW]), (2, [hUserW])] :=
  (support_reply_registration [hAdminW] [hUserW] hSupportW dbSupport).2.2 (by decide)

/-!
## Claims C3, C2
-/

/-- C3: the webhook endpoint answers 200 exactly when the body parses and
the whole dispatch finishes without an uncaught error; in every other
case — parse failure or an error escaping update processing — it answers
500, and the endpoint always returns one of these two statuses (the
exception is caught, the process does not crash). -/
theorem dispatcher_success_iff_200 {B U : Type} (parse : B → Option U)
    (reg : Registry U) (body : B) :
    ((handle_telegram_update parse reg body).1 = 200
      ∨ (handle_telegram_update parse reg body).1 = 500)
    ∧ ((handle_telegram_update parse reg body).1 = 200
      ↔ ∃ u, parse body = some u ∧ (process_update reg u).2 = none) := by
  cases hp : parse body with
  | none => simp [handle_telegram_update, hp]
  | some u =>
    cases hr : (process_update reg u).2 with
    | none => simp [handle_telegram_update, hp, hr]
    | some e => simp [handle_telegram_update, hp, hr]

/-- Counterexample for C2: a body that fails to parse is answered with
status 500 — an error status, but not in the 4xx class the claim names —
while still invoking no handler action. -/
theorem parse_failure_answers_500_not_4xx :
    demoParse "not-json" = none
    ∧ handle_telegram_update demoParse regW "not-json" = (500, [])
    ∧ ¬(400 ≤ (handle_telegram_update demoParse regW "not-json").1
        ∧ (handle_telegram_update demoParse regW "not-json").1 < 500) :=
  ⟨rfl, rfl, by decide⟩

/-- C2 (amended): for every request body that fails to parse as a platform
Update, the dispatcher responds with the error status 500 (not a
4xx-class status) and no handler action is invoked. -/
theorem parse_failure_500_no_handler {B U : Type} (parse : B → Option U)
    (reg : Registry U) (body : B) (h : parse body = none) :
    handle_telegram_update parse reg body = (500, []) := by
  simp [handle_telegram_update, h]

/-- Witness for the amended C2 at a concrete unparsable body. -/
theorem parse_failure_500_no_handler_witness :
    handle_telegram_update demoParse regW "oops" = (500, []) :=
  parse_failure_500_no_handler demoParse regW "oops" (by decide)

/-!
## Claim C8
-/

/-- Counterexample for C8: with five stale topic records, a run of the
final (main.py) daily cleanup job removes five records — a count greater
than zero — yet its trace holds no removed-count log line; only the
earlier bot.py variant logs it. -/
theorem daily_cleanup_count_unlogged_cx :
    (clear_old_topics dbStale).2 = 5
    ∧ 0 < (clear_old_topics dbStale).2
    ∧ (daily_cleanup_job dbStale).2.filter isClearedCountLog = []
    ∧ Event.logClearedCount 5 ∈ (daily_cleanup_job_bot dbStale).2 :=
  ⟨rfl, by decide, by decide, by decide⟩

/-- C8 (amended): each run of either daily-cleanup variant calls the
external clear-old-topic-records operation exactly once; the earlier
bot.py variant logs the removed count when it is greater than zero while
the final main.py variant never logs the count; and the job is idempotent:
an immediate second run finds zero stale records, deletes nothing, leaves
the store unchanged, and an authorized cron call for it still answers 200. -/
theorem daily_cleanup_amended (cfg : Cfg) (auth : Option String) (db : DB) :
    ((daily_cleanup_job db).2.filter isClearCall).length = 1
    ∧ ((daily_cleanup_job_bot db).2.filter isClearCall).length = 1
    ∧ (0 < db.oldTopics →
        Event.logClearedCount db.oldTopics ∈ (daily_cleanup_job_bot db).2)
    ∧ (daily_cleanup_job db).2.filter isClearedCountLog = []
    ∧ (clear_old_topics (daily_cleanup_job db).1).2 = 0
    ∧ daily_cleanup_job ((daily_cleanup_job db).1)
        = ((daily_cleanup_job db).1,
           [Event.logInfo "Cron job: Running daily topic cleanup...",
            Event.dbClearOldTopics 0,
            Event.logInfo "Cron job: Finished daily topic cleanup."])
    ∧ (cronAuthorized cfg.cronSecret auth = true →
        (cron_endpoint cfg auth "daily-cleanup" ((daily_cleanup_job db).1)).1
          = CronStatus.ok "daily cleanup triggered") := by
  refine ⟨rfl, ?_, ?_, rfl, rfl, rfl, ?_⟩
  · rcases Nat.eq_zero_or_pos db.oldTopics with h | h <;>
      simp [daily_cleanup_job_bot, clear_old_topics, h, isClearCall,
        List.filter_append]
  · intro h
    simp [daily_cleanup_job_bot, clear_old_topics, h]
  · intro h
    simp [cron_endpoint, h]

/-- Witness for the amended C8: the bot.py variant logs the removed count
of five, and re-running daily cleanup through an authorized cron call
still answers 200. -/
theorem daily_cleanup_amended_witness :
    Event.logClearedCount 5 ∈ (daily_cleanup_job_bot dbStale).2
    ∧ (cron_endpoint cfgW (some "Bearer sec") "daily-cleanup"
        ((daily_cleanup_job dbStale).1)).1
      = CronStatus.ok "daily cleanup triggered" :=
  ⟨(daily_cleanup_amended cfgW (some "Bearer sec") dbStale).2.2.1 (by decide),
   (daily_cleanup_amended cfgW (some "Bearer sec") dbStale).2.2.2.2.2.2 (by decide)⟩

end Receiver6
